import Mathlib

/-!
Verification of the ECG warning-system core: a shallow embedding of the
alert-classification and aggregation logic of `SimpleECGWarningSystem`
(advanced_ecg_warning_demo.py) and `CompleteECGSystem`
(complete_ecg_system_demo.py), together with theorems settling the
specification's claims about it.

Modelling conventions:
* Python floats (heart rate, beat ratios, RR intervals) are embedded as
  exact rationals `ℚ`; the numeric literals 0.3, 0.1, 0.2 of the source
  are the exact rationals 3/10, 1/10, 1/5.
* The alert-level dictionary is embedded as an enumeration plus lookup
  functions; the dictionary's insertion order, which the sources rely on
  for the overall-level lookup, is `alertLevelsOrder`.
* A classifier result dict is embedded as a `Finding` carrying the
  `type` and `level` fields the decision logic uses; the remaining
  fields (`message`, `action`, `clinical_notes`) are constant
  presentation strings attached per branch and play no role in any
  decision, so they are omitted from the value object.
* `datetime.now()` timestamps and `print` calls are presentation-only
  side effects and are not part of the embedded state.
-/

namespace ECG

/-- The five alert levels, in the insertion order of the sources'
`alert_levels` dictionary. -/
inductive AlertLevel
  | NORMAL
  | CAUTION
  | WARNING
  | CRITICAL
  | EMERGENCY
deriving DecidableEq, Repr, Fintype

open AlertLevel

/-- `alert_levels[level]['priority']` of both sources. -/
def priority : AlertLevel → Nat
  | NORMAL => 0
  | CAUTION => 1
  | WARNING => 2
  | CRITICAL => 3
  | EMERGENCY => 4

/-- `alert_levels[level]['action']` of both sources. -/
def alert_action : AlertLevel → String
  | NORMAL => "Continue monitoring"
  | CAUTION => "Increased monitoring"
  | WARNING => "Medical consultation recommended"
  | CRITICAL => "IMMEDIATE medical attention required"
  | EMERGENCY => "CALL EMERGENCY SERVICES"

/-- The keys of the `alert_levels` dict in insertion order: Python dicts
iterate in insertion order, which the overall-level lookup
`[level for level, info in self.alert_levels.items() if ...][0]` depends on. -/
def alertLevelsOrder : List AlertLevel :=
  [NORMAL, CAUTION, WARNING, CRITICAL, EMERGENCY]

/-- Beat labels of the `arrhythmia_profiles` enumeration
(`N`, `V`, `S`, `F`, `Q`). -/
inductive BeatLabel
  | N
  | V
  | S
  | F
  | Q
deriving DecidableEq, Repr, Fintype

/-- One classifier's result: the `type` and `level` fields of the result
dict. The other dict fields are constant presentation strings per branch
and never inspected by the logic. -/
structure Finding where
  ftype : String
  level : AlertLevel
deriving DecidableEq, Repr

/-- `SimpleECGWarningSystem.check_heart_rate` /
`CompleteECGSystem._check_heart_rate`: both share this decision
structure (they differ only in the omitted presentation strings). -/
def check_heart_rate (hr : ℚ) : Finding :=
  if hr < 40 then ⟨"Severe Bradycardia", CRITICAL⟩
  else if hr > 150 then ⟨"Severe Tachycardia", CRITICAL⟩
  else if hr < 60 then ⟨"Bradycardia", WARNING⟩
  else if hr > 100 then ⟨"Tachycardia", WARNING⟩
  else ⟨"Normal Heart Rate", NORMAL⟩

/-- `SimpleECGWarningSystem.check_arrhythmias` /
`CompleteECGSystem._check_rhythm_patterns`: `None` on an empty pattern,
otherwise the first matching ratio rule. -/
def check_arrhythmias (beat_pattern : List BeatLabel) : Option Finding :=
  if beat_pattern = [] then none
  else
    let total_beats : ℚ := beat_pattern.length
    let v_count : ℚ := beat_pattern.count BeatLabel.V
    let s_count : ℚ := beat_pattern.count BeatLabel.S
    if v_count / total_beats > 3/10 then
      some ⟨"Frequent Ventricular Ectopics", CRITICAL⟩
    else if v_count / total_beats > 1/10 then
      some ⟨"Ventricular Ectopics", WARNING⟩
    else if s_count / total_beats > 1/5 then
      some ⟨"Atrial Arrhythmia", CAUTION⟩
    else
      some ⟨"Normal Rhythm", NORMAL⟩

/-- Mean of a list of rationals (`np.mean`; division by zero yields 0 in
`ℚ`, but every use is guarded by a length check). -/
def rr_mean (rr : List ℚ) : ℚ := rr.sum / rr.length

/-- Population variance of a list of rationals: `np.std(rr)` is the
square root of this quantity (numpy's default `ddof=0`). -/
def rr_var (rr : List ℚ) : ℚ :=
  ((rr.map fun x => (x - rr_mean rr) ^ 2).sum) / rr.length

/-- `CompleteECGSystem._check_rr_variability`. The source compares
`np.std(rr_intervals) > 0.2`; since both sides are nonnegative this is
equivalent to comparing the variance against `0.2^2 = 1/25`, which keeps
the embedding inside `ℚ` (the equivalence with the square-root form is
proved in `rr_variability_spec`). -/
def check_rr_variability (rr_intervals : List ℚ) : Option Finding :=
  if rr_intervals.length < 2 then none
  else if rr_var rr_intervals > 1/25 then
    some ⟨"Irregular Rhythm", WARNING⟩
  else none

/-- The sources' overall-level lookup
`[level for level, info in self.alert_levels.items() if info['priority'] == p][0]`:
the first registry level (in dict insertion order) whose priority is `p`.
The Python `[0]` index would raise on an empty selection; the embedding
returns `none` there and the orchestrators supply a default that is
proved unreachable (`overall_level_lookup_total`). -/
def levelOfPriority (p : Nat) : Option AlertLevel :=
  (alertLevelsOrder.filter fun l => priority l == p).head?

/-- Priority contributed by an optional finding: absent findings
contribute 0 (the sources' `... if rhythm_result else 0` and the
`max_priority = 0` initialisation). -/
def prioOpt : Option Finding → Nat
  | none => 0
  | some f => priority f.level

/-- One `if alert and alert['level'] != 'NORMAL': alerts.append(alert);
max_priority = max(max_priority, ...)` step of
`CompleteECGSystem.analyze_ecg_segment`, acting on the
`(alerts, max_priority)` accumulator. -/
def fold_alert (acc : List Finding × Nat) : Option Finding → List Finding × Nat
  | some a =>
      if a.level ≠ NORMAL then (acc.1 ++ [a], max acc.2 (priority a.level))
      else acc
  | none => acc

/-- `rr_intervals = [(qrs_peaks[i] - qrs_peaks[i-1]) / fs for i in ...]`
of `CompleteECGSystem.analyze_ecg_segment`, computed when
`len(qrs_peaks) > 1` and `[]` otherwise. -/
def rr_intervals_of (qrs_peaks : List ℤ) (fs : ℚ) : List ℚ :=
  if qrs_peaks.length > 1 then
    (qrs_peaks.zip qrs_peaks.tail).map fun p => ((p.2 - p.1 : ℤ) : ℚ) / fs
  else []

/-- `CompleteECGSystem._get_clinical_recommendations`: starts from the
registry's default action for the level, then extends with the fixed
per-level list (the `alerts` parameter of the source is never used). -/
def get_clinical_recommendations (level : AlertLevel) : List String :=
  let recommendations := [alert_action level]
  if level = CRITICAL then
    recommendations ++
      ["Activate emergency response protocol",
       "Notify physician immediately",
       "Initiate continuous monitoring",
       "Prepare emergency medications"]
  else if level = WARNING then
    recommendations ++
      ["Physician evaluation within 1 hour",
       "Increase monitoring frequency",
       "Obtain 12-lead ECG"]
  else if level = CAUTION then
    recommendations ++
      ["Continue close monitoring",
       "Document rhythm changes"]
  else recommendations

/-- The fixed per-level additional recommendation table of
`_get_clinical_recommendations`, as the specification describes it:
a list keyed by the level, empty for levels the source's `if` chain
does not extend (NORMAL and EMERGENCY). -/
def rec_extras : AlertLevel → List String
  | CRITICAL =>
      ["Activate emergency response protocol",
       "Notify physician immediately",
       "Initiate continuous monitoring",
       "Prepare emergency medications"]
  | WARNING =>
      ["Physician evaluation within 1 hour",
       "Increase monitoring frequency",
       "Obtain 12-lead ECG"]
  | CAUTION =>
      ["Continue close monitoring",
       "Document rhythm changes"]
  | _ => []

/-- `CompleteECGSystem.analyze_ecg_segment`'s returned dict, minus the
presentation-only `timestamp` (wall clock) and `duration`
(`len(ecg_data)/fs`, a pass-through of the raw-waveform argument that no
decision reads). -/
structure SegmentAnalysis where
  overall_level : AlertLevel
  alerts : List Finding
  heart_rate : ℚ
  beat_count : Nat
  recommendations : List String
deriving DecidableEq, Repr

/-- `CompleteECGSystem.analyze_ecg_segment`: computes RR intervals from
the QRS peak indices, runs the three classifiers, accumulates the
non-NORMAL findings and the max priority, and looks up the overall
level (`... if max_priority > 0 else 'NORMAL'`). -/
def analyze_ecg_segment (predictions : List BeatLabel) (heart_rate : ℚ)
    (qrs_peaks : List ℤ) (fs : ℚ) : SegmentAnalysis :=
  let rr_intervals := rr_intervals_of qrs_peaks fs
  let hr_alert := check_heart_rate heart_rate
  let rhythm_alert := check_arrhythmias predictions
  let rr_alert := if rr_intervals ≠ [] then check_rr_variability rr_intervals else none
  let acc := fold_alert (fold_alert (fold_alert ([], 0) (some hr_alert)) rhythm_alert) rr_alert
  let overall_level :=
    if acc.2 > 0 then (levelOfPriority acc.2).getD NORMAL else NORMAL
  { overall_level := overall_level
    alerts := acc.1
    heart_rate := heart_rate
    beat_count := predictions.length
    recommendations := get_clinical_recommendations overall_level }

/-- The inline recommendation table of
`SimpleECGWarningSystem.analyze_patient` (no registry action is
prepended there; the final `else` branch also covers EMERGENCY). -/
def simple_recommendations (overall : AlertLevel) : List String :=
  if overall = CRITICAL then
    ["🚨 Activate emergency response protocol",
     "📞 Notify physician immediately",
     "💊 Prepare emergency medications",
     "🔄 Initiate continuous monitoring",
     "📋 Obtain 12-lead ECG"]
  else if overall = WARNING then
    ["⚠️ Physician evaluation within 1 hour",
     "🔄 Increase monitoring frequency",
     "📋 Obtain 12-lead ECG",
     "🩺 Check vital signs every 15 minutes",
     "💊 Review current medications"]
  else if overall = CAUTION then
    ["👁️ Continue close monitoring",
     "📝 Document all rhythm changes",
     "📞 Consider cardiology consultation",
     "🩺 Monitor for symptoms"]
  else
    ["✅ Continue routine monitoring",
     "📊 Standard vital sign checks",
     "📝 Document normal findings"]

/-- `SimpleECGWarningSystem.analyze_patient`'s returned dict, minus the
pass-through `patient_id` and the wall-clock `timestamp`. -/
structure PatientAnalysis where
  heart_rate : Finding
  rhythm : Option Finding
  overall_level : AlertLevel
  recommendations : List String
deriving DecidableEq, Repr

/-- `SimpleECGWarningSystem.analyze_patient`: both classifiers, then
`max_priority = max(hr_prio, rhythm_prio if rhythm_result else 0)` and
the registry lookup for the overall level. -/
def analyze_patient (heart_rate : ℚ) (beat_pattern : List BeatLabel) :
    PatientAnalysis :=
  let hr_result := check_heart_rate heart_rate
  let rhythm_result := check_arrhythmias beat_pattern
  let max_priority := max (priority hr_result.level) (prioOpt rhythm_result)
  let overall_level := (levelOfPriority max_priority).getD NORMAL
  { heart_rate := hr_result
    rhythm := rhythm_result
    overall_level := overall_level
    recommendations := simple_recommendations overall_level }

/-! ## Helper lemmas shared by the claim theorems -/

lemma priority_eq_zero_iff (l : AlertLevel) : priority l = 0 ↔ l = NORMAL := by
  cases l <;> simp [priority]

lemma fold_alert_snd (acc : List Finding × Nat) (f : Option Finding) :
    (fold_alert acc f).2 = max acc.2 (prioOpt f) := by
  cases f with
  | none => simp [fold_alert, prioOpt]
  | some a =>
      by_cases h : a.level = NORMAL
      · simp [fold_alert, prioOpt, h, priority]
      · simp [fold_alert, prioOpt, h]

lemma fold_alert_fst_head (acc : List Finding × Nat) (f : Option Finding)
    (x : Finding) (hx : acc.1.head? = some x) :
    (fold_alert acc f).1.head? = some x := by
  cases f with
  | none => exact hx
  | some a =>
      by_cases h : a.level = NORMAL
      · simpa [fold_alert, h] using hx
      · simp only [fold_alert, h, ne_eq, not_false_iff, if_pos]
        cases hacc : acc.1 with
        | nil => rw [hacc] at hx; simp at hx
        | cons y t => rw [hacc] at hx; simpa using hx

lemma segment_acc_snd (hrF : Finding) (ryF rrF : Option Finding) :
    (fold_alert (fold_alert (fold_alert ([], 0) (some hrF)) ryF) rrF).2 =
      max (priority hrF.level) (max (prioOpt ryF) (prioOpt rrF)) := by
  rw [fold_alert_snd, fold_alert_snd, fold_alert_snd]
  simp [prioOpt, Nat.max_assoc]

lemma check_heart_rate_prio_le (hr : ℚ) :
    priority (check_heart_rate hr).level ≤ 3 := by
  unfold check_heart_rate
  split_ifs <;> decide

lemma check_heart_rate_low (hr : ℚ) (h : hr < 40) :
    check_heart_rate hr = ⟨"Severe Bradycardia", CRITICAL⟩ := by
  unfold check_heart_rate
  rw [if_pos h]

lemma check_arrhythmias_prio_le (bp : List BeatLabel) :
    prioOpt (check_arrhythmias bp) ≤ 3 := by
  simp only [check_arrhythmias]
  split_ifs <;> decide

lemma check_rr_prio_le (rr : List ℚ) :
    prioOpt (check_rr_variability rr) ≤ 2 := by
  unfold check_rr_variability
  split_ifs <;> decide

lemma rr_var_nonneg (rr : List ℚ) : 0 ≤ rr_var rr := by
  unfold rr_var
  apply div_nonneg
  · apply List.sum_nonneg
    intro x hx
    simp only [List.mem_map] at hx
    obtain ⟨y, -, rfl⟩ := hx
    positivity
  · positivity

lemma sqrt_var_gt_iff (rr : List ℚ) :
    ((0.2 : ℝ) < Real.sqrt ((rr_var rr : ℚ) : ℝ)) ↔ (1/25 : ℚ) < rr_var rr := by
  rw [Real.lt_sqrt (by norm_num)]
  have h : ((0.2 : ℝ)) ^ 2 = (((1/25 : ℚ) : ℚ) : ℝ) := by norm_num
  rw [h, Rat.cast_lt]

/-! ## Claim theorems -/

/-- C1: for every heart rate `hr`, the Heart Rate Classifier returns
exactly one Finding, determined by strict comparisons evaluated
top-to-bottom with first match winning: `hr < 40` yields Severe
Bradycardia/CRITICAL, else `hr > 150` Severe Tachycardia/CRITICAL, else
`hr < 60` Bradycardia/WARNING, else `hr > 100` Tachycardia/WARNING,
else Normal Heart Rate/NORMAL; in particular `hr = 40` and `hr = 150`
yield WARNING, not CRITICAL. (Stated as the equivalent disjoint-region
partition of `ℚ`, plus the two boundary values.) -/
theorem heart_rate_classifier_spec (hr : ℚ) :
    (hr < 40 → check_heart_rate hr = ⟨"Severe Bradycardia", CRITICAL⟩) ∧
    (40 ≤ hr → hr < 60 → check_heart_rate hr = ⟨"Bradycardia", WARNING⟩) ∧
    (60 ≤ hr → hr ≤ 100 → check_heart_rate hr = ⟨"Normal Heart Rate", NORMAL⟩) ∧
    (100 < hr → hr ≤ 150 → check_heart_rate hr = ⟨"Tachycardia", WARNING⟩) ∧
    (150 < hr → check_heart_rate hr = ⟨"Severe Tachycardia", CRITICAL⟩) ∧
    (check_heart_rate 40).level = WARNING ∧
    (check_heart_rate 150).level = WARNING := by
  refine ⟨?_, ?_, ?_, ?_, ?_, ?_, ?_⟩ <;>
    (intros
     unfold check_heart_rate
     split_ifs <;> first | rfl | linarith)

/-- Witness for C1: the theorem applied on each side of every boundary. -/
theorem heart_rate_classifier_spec_witness :
    check_heart_rate 39 = ⟨"Severe Bradycardia", CRITICAL⟩ ∧
    check_heart_rate 40 = ⟨"Bradycardia", WARNING⟩ ∧
    check_heart_rate 72 = ⟨"Normal Heart Rate", NORMAL⟩ ∧
    check_heart_rate 150 = ⟨"Tachycardia", WARNING⟩ ∧
    check_heart_rate 151 = ⟨"Severe Tachycardia", CRITICAL⟩ :=
  ⟨(heart_rate_classifier_spec 39).1 (by norm_num),
   (heart_rate_classifier_spec 40).2.1 (by norm_num) (by norm_num),
   (heart_rate_classifier_spec 72).2.2.1 (by norm_num) (by norm_num),
   (heart_rate_classifier_spec 150).2.2.2.1 (by norm_num) (by norm_num),
   (heart_rate_classifier_spec 151).2.2.2.2.1 (by norm_num)⟩

/-- C2: for every non-empty beat-label sequence the Rhythm Pattern
Classifier applies the fixed rule order (v-ratio > 3/10 CRITICAL, else
v-ratio > 1/10 WARNING, else s-ratio > 1/5 CAUTION, else NORMAL) with
only the first matching rule firing, and returns `none` for the empty
sequence. (Stated as the equivalent disjoint-region form.) -/
theorem rhythm_classifier_spec (bp : List BeatLabel) :
    (bp = [] → check_arrhythmias bp = none) ∧
    (bp ≠ [] →
      ((bp.count BeatLabel.V : ℚ) / bp.length > 3/10 →
        check_arrhythmias bp = some ⟨"Frequent Ventricular Ectopics", CRITICAL⟩) ∧
      ((bp.count BeatLabel.V : ℚ) / bp.length ≤ 3/10 →
       (bp.count BeatLabel.V : ℚ) / bp.length > 1/10 →
        check_arrhythmias bp = some ⟨"Ventricular Ectopics", WARNING⟩) ∧
      ((bp.count BeatLabel.V : ℚ) / bp.length ≤ 1/10 →
       (bp.count BeatLabel.S : ℚ) / bp.length > 1/5 →
        check_arrhythmias bp = some ⟨"Atrial Arrhythmia", CAUTION⟩) ∧
      ((bp.count BeatLabel.V : ℚ) / bp.length ≤ 1/10 →
       (bp.count BeatLabel.S : ℚ) / bp.length ≤ 1/5 →
        check_arrhythmias bp = some ⟨"Normal Rhythm", NORMAL⟩)) := by
  constructor
  · intro h
    simp [check_arrhythmias, h]
  · intro h
    refine ⟨?_, ?_, ?_, ?_⟩ <;> intros <;>
      (simp only [check_arrhythmias]
       split_ifs <;> first | rfl | exact absurd ‹bp = []› h | linarith)

/-- Witness for C2: the theorem applied at a representative input of
each rule, and at the empty sequence. -/
theorem rhythm_classifier_spec_witness :
    check_arrhythmias [] = none ∧
    check_arrhythmias [BeatLabel.V] =
      some ⟨"Frequent Ventricular Ectopics", CRITICAL⟩ ∧
    check_arrhythmias [BeatLabel.V, BeatLabel.N, BeatLabel.N, BeatLabel.N, BeatLabel.N] =
      some ⟨"Ventricular Ectopics", WARNING⟩ ∧
    check_arrhythmias [BeatLabel.S, BeatLabel.N] =
      some ⟨"Atrial Arrhythmia", CAUTION⟩ ∧
    check_arrhythmias [BeatLabel.N, BeatLabel.N] =
      some ⟨"Normal Rhythm", NORMAL⟩ :=
  have c1 : List.count BeatLabel.V [BeatLabel.V] = 1 := by decide
  have c2v : List.count BeatLabel.V
      [BeatLabel.V, BeatLabel.N, BeatLabel.N, BeatLabel.N, BeatLabel.N] = 1 := by decide
  have c3v : List.count BeatLabel.V [BeatLabel.S, BeatLabel.N] = 0 := by decide
  have c3s : List.count BeatLabel.S [BeatLabel.S, BeatLabel.N] = 1 := by decide
  have c4v : List.count BeatLabel.V [BeatLabel.N, BeatLabel.N] = 0 := by decide
  have c4s : List.count BeatLabel.S [BeatLabel.N, BeatLabel.N] = 0 := by decide
  ⟨(rhythm_classifier_spec []).1 rfl,
   ((rhythm_classifier_spec [BeatLabel.V]).2 (by simp)).1 (by rw [c1]; norm_num),
   ((rhythm_classifier_spec _).2 (by simp)).2.1
     (by rw [c2v]; norm_num) (by rw [c2v]; norm_num),
   ((rhythm_classifier_spec _).2 (by simp)).2.2.1
     (by rw [c3v]; norm_num) (by rw [c3s]; norm_num),
   ((rhythm_classifier_spec _).2 (by simp)).2.2.2
     (by rw [c4v]; norm_num) (by rw [c4s]; norm_num)⟩

/-- C4: the RR Variability Classifier returns no Finding for fewer than
2 intervals; otherwise it returns Irregular Rhythm/WARNING exactly when
the population standard deviation of the intervals exceeds 0.2 seconds,
and no Finding otherwise — in particular it never returns any other
Finding (so never a NORMAL-level one). -/
theorem rr_variability_spec (rr : List ℚ) :
    (rr.length < 2 → check_rr_variability rr = none) ∧
    (2 ≤ rr.length →
      (check_rr_variability rr = some ⟨"Irregular Rhythm", WARNING⟩ ↔
        (0.2 : ℝ) < Real.sqrt ((rr_var rr : ℚ) : ℝ))) ∧
    (∀ f, check_rr_variability rr = some f → f = ⟨"Irregular Rhythm", WARNING⟩) := by
  refine ⟨?_, ?_, ?_⟩
  · intro h
    simp [check_rr_variability, h]
  · intro h
    rw [sqrt_var_gt_iff]
    unfold check_rr_variability
    rw [if_neg (by omega)]
    split_ifs with hv <;> simp [hv] <;> linarith
  · intro f hf
    unfold check_rr_variability at hf
    split_ifs at hf <;>
      first
        | exact Option.noConfusion hf
        | exact (Option.some.inj hf).symm

/-- Witness for C4: the theorem applied at `[0, 1]` (variance 1/4,
standard deviation 1/2 > 0.2) and at the too-short list `[0]`. -/
theorem rr_variability_spec_witness :
    check_rr_variability [0, 1] = some ⟨"Irregular Rhythm", WARNING⟩ ∧
    (0.2 : ℝ) < Real.sqrt ((rr_var [0, 1] : ℚ) : ℝ) ∧
    check_rr_variability [0] = none :=
  have h1 : check_rr_variability [0, 1] = some ⟨"Irregular Rhythm", WARNING⟩ := by
    norm_num [check_rr_variability, rr_var, rr_mean]
  ⟨h1,
   ((rr_variability_spec [0, 1]).2.1 (by norm_num)).mp h1,
   (rr_variability_spec [0]).1 (by norm_num)⟩

/-- C8: the Rhythm Pattern Classifier is invariant under permutation of
the beat-label sequence — its output depends only on the counts of each
label, not on their order. -/
theorem rhythm_perm_invariant (bp1 bp2 : List BeatLabel) (h : bp1.Perm bp2) :
    check_arrhythmias bp1 = check_arrhythmias bp2 := by
  by_cases h1 : bp1 = []
  · subst h1
    rw [h.symm.eq_nil]
  · have h2 : bp2 ≠ [] := by
      intro e
      subst e
      exact h1 h.eq_nil
    have hlen := h.length_eq
    have hv := h.count_eq BeatLabel.V
    have hs := h.count_eq BeatLabel.S
    simp only [check_arrhythmias]
    rw [if_neg h1, if_neg h2, hlen, hv, hs]

/-- Witness for C8: the theorem applied to a concrete permutation. -/
theorem rhythm_perm_invariant_witness :
    check_arrhythmias [BeatLabel.V, BeatLabel.N] =
      check_arrhythmias [BeatLabel.N, BeatLabel.V] :=
  rhythm_perm_invariant [BeatLabel.V, BeatLabel.N] [BeatLabel.N, BeatLabel.V]
    (List.Perm.swap BeatLabel.N BeatLabel.V [])

/-- C9: no classifier ever produces an EMERGENCY-level Finding — every
Finding returned by the heart-rate, rhythm, or RR-variability
classifier has a level other than EMERGENCY — while the registry still
carries EMERGENCY with priority 4. -/
theorem no_emergency_findings (hr : ℚ) (bp : List BeatLabel) (rr : List ℚ) :
    (check_heart_rate hr).level ≠ EMERGENCY ∧
    (∀ f, check_arrhythmias bp = some f → f.level ≠ EMERGENCY) ∧
    (∀ f, check_rr_variability rr = some f → f.level ≠ EMERGENCY) ∧
    priority EMERGENCY = 4 ∧ EMERGENCY ∈ alertLevelsOrder := by
  refine ⟨?_, ?_, ?_, rfl, by decide⟩
  · unfold check_heart_rate
    split_ifs <;> decide
  · intro f hf
    simp only [check_arrhythmias] at hf
    split_ifs at hf <;>
      first
        | exact Option.noConfusion hf
        | (cases Option.some.inj hf; decide)
  · intro f hf
    unfold check_rr_variability at hf
    split_ifs at hf <;>
      first
        | exact Option.noConfusion hf
        | (cases Option.some.inj hf; decide)

/-- Witness for C9: the theorem applied at inputs making every
classifier fire. -/
theorem no_emergency_findings_witness :
    (check_heart_rate 200).level ≠ EMERGENCY ∧
    (Finding.mk "Frequent Ventricular Ectopics" CRITICAL).level ≠ EMERGENCY ∧
    (Finding.mk "Irregular Rhythm" WARNING).level ≠ EMERGENCY :=
  ⟨(no_emergency_findings 200 [BeatLabel.V] [0, 1]).1,
   (no_emergency_findings 200 [BeatLabel.V] [0, 1]).2.1 _
     (by norm_num [check_arrhythmias]),
   (no_emergency_findings 200 [BeatLabel.V] [0, 1]).2.2.1 _
     (by norm_num [check_rr_variability, rr_var, rr_mean])⟩

/-- C10: the registry's five levels carry the five distinct priorities
0–4, so for any priority in {0,...,4} the overall-level selection
(filter by priority, take index 0) finds exactly one level: the filter
has length 1, the head exists, and the selected level has exactly that
priority. -/
theorem overall_level_lookup_total (p : Nat) (hp : p ≤ 4) :
    alertLevelsOrder.map priority = [0, 1, 2, 3, 4] ∧
    (alertLevelsOrder.filter fun l => priority l == p).length = 1 ∧
    ∃ l, levelOfPriority p = some l ∧ priority l = p := by
  interval_cases p <;> decide

/-- Witness for C10: the theorem applied at priority 3 (the lookup the
orchestrators hit on any CRITICAL finding). -/
theorem overall_level_lookup_total_witness :
    alertLevelsOrder.map priority = [0, 1, 2, 3, 4] ∧
    (alertLevelsOrder.filter fun l => priority l == 3).length = 1 ∧
    ∃ l, levelOfPriority 3 = some l ∧ priority l = 3 :=
  overall_level_lookup_total 3 (by norm_num)

/-- C6: for every overall AlertLevel, the Recommendation Engine
(`_get_clinical_recommendations`) returns the registry's default action
for that level as first element followed by the fixed additional list
keyed by the level; being a function of the level alone, identical
levels yield identical lists. -/
theorem recommendation_engine_spec (level : AlertLevel) :
    get_clinical_recommendations level = alert_action level :: rec_extras level ∧
    (get_clinical_recommendations level).head? = some (alert_action level) := by
  cases level <;> exact ⟨rfl, rfl⟩

/-- Witness for C6: the theorem applied at CRITICAL. -/
theorem recommendation_engine_spec_witness :
    get_clinical_recommendations CRITICAL =
      alert_action CRITICAL :: rec_extras CRITICAL ∧
    (get_clinical_recommendations CRITICAL).head? = some (alert_action CRITICAL) :=
  recommendation_engine_spec CRITICAL

lemma prioOpt_eq_zero_iff (x : Option Finding) :
    prioOpt x = 0 ↔ ∀ f, x = some f → priority f.level = 0 := by
  cases x with
  | none => simp [prioOpt]
  | some f => simp [prioOpt]

lemma aggregator_core (a b c : Nat) (h1 : a ≤ 3) (h2 : b ≤ 3) (h3 : c ≤ 3) :
    priority (if max a (max b c) > 0 then
        (levelOfPriority (max a (max b c))).getD NORMAL else NORMAL) =
      max a (max b c) ∧
    ((if max a (max b c) > 0 then
        (levelOfPriority (max a (max b c))).getD NORMAL else NORMAL) = NORMAL ↔
      a = 0 ∧ b = 0 ∧ c = 0) := by
  obtain ⟨m, hm⟩ : ∃ m, max a (max b c) = m := ⟨_, rfl⟩
  have hm3 : m ≤ 3 := hm ▸ max_le h1 (max_le h2 h3)
  have hiff : m = 0 ↔ a = 0 ∧ b = 0 ∧ c = 0 := by omega
  rw [hm]
  constructor
  · interval_cases m <;> decide
  · interval_cases m
    · simpa using hiff.mp rfl
    · exact iff_of_false (by decide) fun h => by simpa using hiff.mpr h
    · exact iff_of_false (by decide) fun h => by simpa using hiff.mpr h
    · exact iff_of_false (by decide) fun h => by simpa using hiff.mpr h

/-- C3: the overall priority of a segment analysis equals the maximum
of the priorities of the Findings produced by the three classifiers
(an absent Finding contributing 0); the overall level is the registry
level with that priority, and it is NORMAL exactly when no produced
Finding has priority greater than 0. -/
theorem severity_aggregator_spec (predictions : List BeatLabel) (heart_rate : ℚ)
    (qrs_peaks : List ℤ) (fs : ℚ) :
    priority (analyze_ecg_segment predictions heart_rate qrs_peaks fs).overall_level =
      max (priority (check_heart_rate heart_rate).level)
        (max (prioOpt (check_arrhythmias predictions))
          (prioOpt (if rr_intervals_of qrs_peaks fs ≠ [] then
              check_rr_variability (rr_intervals_of qrs_peaks fs) else none))) ∧
    ((analyze_ecg_segment predictions heart_rate qrs_peaks fs).overall_level = NORMAL ↔
      priority (check_heart_rate heart_rate).level = 0 ∧
      (∀ f, check_arrhythmias predictions = some f → priority f.level = 0) ∧
      (∀ f, (if rr_intervals_of qrs_peaks fs ≠ [] then
          check_rr_variability (rr_intervals_of qrs_peaks fs) else none) = some f →
        priority f.level = 0)) := by
  have hp1 := check_heart_rate_prio_le heart_rate
  have hp2 := check_arrhythmias_prio_le predictions
  have hp3 : prioOpt (if rr_intervals_of qrs_peaks fs ≠ [] then
      check_rr_variability (rr_intervals_of qrs_peaks fs) else none) ≤ 3 := by
    split_ifs
    · exact (check_rr_prio_le _).trans (by norm_num)
    · exact Nat.zero_le 3
  have hcore := aggregator_core _ _ _ hp1 hp2 hp3
  simp only [analyze_ecg_segment, segment_acc_snd]
  constructor
  · exact hcore.1
  · rw [hcore.2, prioOpt_eq_zero_iff, prioOpt_eq_zero_iff]

/-- Witness for C3: the theorem applied at concrete inputs (rate 38,
beat pattern with high ventricular burden, irregular RR intervals). -/
theorem severity_aggregator_spec_witness :
    priority (analyze_ecg_segment [BeatLabel.V] 38 [0, 360] 360).overall_level =
      max (priority (check_heart_rate 38).level)
        (max (prioOpt (check_arrhythmias [BeatLabel.V]))
          (prioOpt (if rr_intervals_of [0, 360] 360 ≠ [] then
              check_rr_variability (rr_intervals_of [0, 360] 360) else none))) ∧
    ((analyze_ecg_segment [BeatLabel.V] 38 [0, 360] 360).overall_level = NORMAL ↔
      priority (check_heart_rate 38).level = 0 ∧
      (∀ f, check_arrhythmias [BeatLabel.V] = some f → priority f.level = 0) ∧
      (∀ f, (if rr_intervals_of [0, 360] 360 ≠ [] then
          check_rr_variability (rr_intervals_of [0, 360] 360) else none) = some f →
        priority f.level = 0)) :=
  severity_aggregator_spec [BeatLabel.V] 38 [0, 360] 360

/-- C5 counterexample: the orchestrator called with heart rate 0 does
not abort — it runs the classifiers and returns a complete
SegmentAnalysis in which the zero heart rate has been silently
classified as Severe Bradycardia/CRITICAL. No validation or error path
exists in either source orchestrator. -/
theorem no_validation_counterexample :
    analyze_ecg_segment [] 0 [] 1 =
      { overall_level := CRITICAL
        alerts := [⟨"Severe Bradycardia", CRITICAL⟩]
        heart_rate := 0
        beat_count := 0
        recommendations :=
          ["IMMEDIATE medical attention required",
           "Activate emergency response protocol",
           "Notify physician immediately",
           "Initiate continuous monitoring",
           "Prepare emergency medications"] } := by
  have h1 : check_heart_rate 0 = ⟨"Severe Bradycardia", CRITICAL⟩ :=
    check_heart_rate_low 0 (by norm_num)
  simp only [analyze_ecg_segment, rr_intervals_of, check_arrhythmias, h1]
  decide

/-- C5 amended: the orchestrators perform no input validation; a zero
or negative heart rate is silently classified (it falls into the
`hr < 40` branch, yielding Severe Bradycardia/CRITICAL as the first
alert) and a complete analysis with overall level CRITICAL is returned
by both orchestrators. -/
theorem no_validation_amended (predictions : List BeatLabel) (heart_rate : ℚ)
    (qrs_peaks : List ℤ) (fs : ℚ) (h : heart_rate ≤ 0) :
    (analyze_ecg_segment predictions heart_rate qrs_peaks fs).alerts.head? =
      some ⟨"Severe Bradycardia", CRITICAL⟩ ∧
    (analyze_ecg_segment predictions heart_rate qrs_peaks fs).overall_level = CRITICAL ∧
    (analyze_patient heart_rate predictions).heart_rate =
      ⟨"Severe Bradycardia", CRITICAL⟩ ∧
    (analyze_patient heart_rate predictions).overall_level = CRITICAL := by
  have hlow : check_heart_rate heart_rate = ⟨"Severe Bradycardia", CRITICAL⟩ :=
    check_heart_rate_low heart_rate (lt_of_le_of_lt h (by norm_num))
  have hp2 := check_arrhythmias_prio_le predictions
  refine ⟨?_, ?_, ?_, ?_⟩
  · simp only [analyze_ecg_segment, hlow]
    apply fold_alert_fst_head
    apply fold_alert_fst_head
    simp [fold_alert]
  · simp only [analyze_ecg_segment, segment_acc_snd, hlow]
    have hp3 : prioOpt (if rr_intervals_of qrs_peaks fs ≠ [] then
        check_rr_variability (rr_intervals_of qrs_peaks fs) else none) ≤ 3 := by
      split_ifs
      · exact (check_rr_prio_le _).trans (by norm_num)
      · exact Nat.zero_le 3
    have hm : max (priority (Finding.mk "Severe Bradycardia" CRITICAL).level)
        (max (prioOpt (check_arrhythmias predictions))
          (prioOpt (if rr_intervals_of qrs_peaks fs ≠ [] then
              check_rr_variability (rr_intervals_of qrs_peaks fs) else none))) = 3 := by
      simp only [priority]
      omega
    rw [hm]
    decide
  · simp [analyze_patient, hlow]
  · simp only [analyze_patient, hlow]
    have hm : max (priority (Finding.mk "Severe Bradycardia" CRITICAL).level)
        (prioOpt (check_arrhythmias predictions)) = 3 := by
      simp only [priority]
      omega
    rw [hm]
    decide

/-- Witness for C5's amended theorem: applied at heart rate 0. -/
theorem no_validation_amended_witness :
    (analyze_ecg_segment [] 0 [] 1).alerts.head? =
      some ⟨"Severe Bradycardia", CRITICAL⟩ ∧
    (analyze_ecg_segment [] 0 [] 1).overall_level = CRITICAL ∧
    (analyze_patient 0 []).heart_rate = ⟨"Severe Bradycardia", CRITICAL⟩ ∧
    (analyze_patient 0 []).overall_level = CRITICAL :=
  no_validation_amended [] 0 [] 1 (by norm_num)

/-- C7: two orchestrator calls with identical inputs (same beat
sequence, heart rate, QRS peaks/RR intervals) produce identical
analyses — identical findings, overall level, and recommendation lists
(the wall-clock timestamp is outside the embedded state). Holds for
both orchestrators. -/
theorem orchestrator_deterministic
    (p1 p2 : List BeatLabel) (h1 h2 : ℚ) (q1 q2 : List ℤ) (f1 f2 : ℚ)
    (hp : p1 = p2) (hh : h1 = h2) (hq : q1 = q2) (hf : f1 = f2) :
    analyze_ecg_segment p1 h1 q1 f1 = analyze_ecg_segment p2 h2 q2 f2 ∧
    analyze_patient h1 p1 = analyze_patient h2 p2 := by
  subst hp
  subst hh
  subst hq
  subst hf
  exact ⟨rfl, rfl⟩

/-- Witness for C7: the theorem applied at concrete equal inputs. -/
theorem orchestrator_deterministic_witness :
    analyze_ecg_segment [BeatLabel.N, BeatLabel.V] 72 [0, 360] 360 =
      analyze_ecg_segment [BeatLabel.N, BeatLabel.V] 72 [0, 360] 360 ∧
    analyze_patient 72 [BeatLabel.N, BeatLabel.V] =
      analyze_patient 72 [BeatLabel.N, BeatLabel.V] :=
  orchestrator_deterministic [BeatLabel.N, BeatLabel.V] [BeatLabel.N, BeatLabel.V]
    72 72 [0, 360] [0, 360] 360 360 rfl rfl rfl rfl

end ECG
